import Mathlib

/-!
Verification development for the Gemi inference server
(`python-inference-server/inference_server.py`).

The Python server is shallowly embedded: Python strings that undergo
character-level manipulation (slicing, stripping, whitespace splitting)
are modelled as `List Char`; Python `float` time values are idealised as
rationals; fallible library calls (image decoding, model loading, the
backend generation call) are modelled by explicit parameters describing
their outcome.  Each definition mirrors one function or code region of
the source file, named after it where Lean allows.
-/

set_option autoImplicit false

/-! ### Python string primitives -/

/-- Python `str.strip()` with no argument: remove leading and trailing
whitespace characters. -/
def pyStrip (s : List Char) : List Char :=
  ((s.dropWhile Char.isWhitespace).reverse.dropWhile Char.isWhitespace).reverse

/-- Helper for `pyWords`: accumulates the current (reversed) word. -/
def pyWordsAux : List Char → List Char → List (List Char)
  | [], acc => if acc.isEmpty then [] else [acc.reverse]
  | c :: rest, acc =>
    if c.isWhitespace then
      if acc.isEmpty then pyWordsAux rest [] else acc.reverse :: pyWordsAux rest []
    else pyWordsAux rest (c :: acc)

/-- Python `str.split()` with no argument: split on runs of whitespace,
discarding empty words (so leading/trailing whitespace contributes
nothing).  `len(s.split())` is the whitespace-word count used by the
server for `eval_count`. -/
def pyWords (s : List Char) : List (List Char) := pyWordsAux s []

/-- Python `int(x)` on a (here: rational-valued) number: truncation
toward zero. -/
def pyInt (q : ℚ) : Int := if 0 ≤ q then q.floor else -((-q).floor)

/-! ### Data model (`ChatMessage`, `ChatRequest`, options) -/

/-- Embeds `class ChatMessage(BaseModel)` (lines 78-81): `role`, `content`,
optional list of base64-encoded images. -/
structure ChatMessage where
  role : String
  content : String
  images : Option (List String)
deriving DecidableEq, Repr

/-- The four keys the server reads out of the `options` dict of the request:
`temperature`, `num_predict`, `top_p`, `top_k`.  A `none` field models
an absent key (so `dict.get(key, default)` falls back to the default). -/
structure ChatOptions where
  temperature : Option ℚ
  num_predict : Option Nat
  top_p : Option ℚ
  top_k : Option Nat
deriving DecidableEq, Repr

/-- A raw (pre-validation) request body for `POST /api/chat`: each field
is `none` when the JSON key is absent. -/
structure RawChatRequest where
  model : Option String
  messages : Option (List ChatMessage)
  stream : Option Bool
  options : Option ChatOptions
deriving DecidableEq, Repr

/-- Embeds `class ChatRequest(BaseModel)` (lines 83-87) after validation:
`model` and `messages` are required, `stream` defaults to `True`,
`options` defaults to `None`. -/
structure ChatRequest where
  model : String
  messages : List ChatMessage
  stream : Bool
  options : Option ChatOptions
deriving DecidableEq, Repr

/-- Pydantic validation of the `ChatRequest` model as declared at lines
83-87: a missing required field (`model`, `messages`) is a validation
error (FastAPI answers 422 before the handler body runs); `stream`
defaults to `True`; no constraint on `messages` beyond its type, in
particular the empty list is accepted. -/
def validateChatRequest (r : RawChatRequest) : Except String ChatRequest :=
  match r.model with
  | none => .error "field required: model"
  | some m =>
    match r.messages with
    | none => .error "field required: messages"
    | some msgs => .ok ⟨m, msgs, r.stream.getD true, r.options⟩

/-! ### Model lifecycle (`load_model_async`, `test_model`) -/

/-- The fallible operations inside the `try` block of
`load_model_async` (lines 162-220): the processor download, the weight
download, the move of the weights to the compute device, and the
post-load self-test `test_model` (lines 222-247, which re-raises on
failure). -/
inductive LoadFault where
  | processorLoad
  | modelLoad
  | moveToDevice
  | selfTest
deriving DecidableEq, Repr

/-- Lifecycle globals of the server (lines 63-68): `model_loaded` and
`download_progress`. -/
structure ServerState where
  model_loaded : Bool
  download_progress : ℚ
deriving DecidableEq, Repr

/-- Initial values of the globals: `model_loaded = False`,
`download_progress = 0.0`. -/
def initialServerState : ServerState := ⟨false, 0⟩

/-- Embeds `load_model_async` (lines 162-220), as the final value of the
lifecycle globals for a load attempt in which the operation `fault`
raises (or none does).  Mirrors the source order: progress is stepped
0.1 / 0.2 / 0.3 / 0.8 / 1.0, `model_loaded` is set to `True` right
after progress reaches 1.0, and only then is `test_model` awaited; the
`except` clause (lines 217-220) sets `download_progress = -1.0` and
re-raises, touching nothing else. -/
def load_model_async (fault : Option LoadFault) : ServerState :=
  let s : ServerState := { initialServerState with download_progress := 1/10 }
  if fault = some .processorLoad then { s with download_progress := -1 } else
  let s := { s with download_progress := 3/10 }
  if fault = some .modelLoad then { s with download_progress := -1 } else
  let s := { s with download_progress := 8/10 }
  if fault = some .moveToDevice then { s with download_progress := -1 } else
  let s : ServerState := { model_loaded := true, download_progress := 1 }
  if fault = some .selfTest then { s with download_progress := -1 } else
  s

/-- The response of `GET /api/health` (lines 384-393), restricted to
the state-dependent fields (`device` / `mps_available` only reflect the
host environment). -/
structure HealthResponse where
  status : String
  model_loaded : Bool
  download_progress : ℚ
deriving DecidableEq, Repr

/-- Embeds `health_check` (lines 384-393): `status` is `"healthy"` when
`model_loaded` else `"loading"`; the raw globals are echoed. -/
def health_check (s : ServerState) : HealthResponse :=
  { status := if s.model_loaded then "healthy" else "loading"
    model_loaded := s.model_loaded
    download_progress := s.download_progress }

/-- Outcome of the `POST /api/chat` handler before any generation work
(lines 412-430): a 422 validation error from pydantic, a 503 for a
not-loaded model (distinguishing the negative-progress branch), or the
generation call with the validated messages and stream flag. -/
inductive ChatOutcome where
  | validationError (msg : String)
  | error503failed
  | error503loading (progress : ℚ)
  | generate (messages : List ChatMessage) (stream : Bool) (options : Option ChatOptions)
deriving DecidableEq, Repr

/-- The guard and dispatch of `chat` (lines 412-430): request-body
validation (by FastAPI, before the handler body), then the
`model_loaded` check with its two 503 branches, then the generation
call on the messages of the validated request. -/
def chat_endpoint (s : ServerState) (raw : RawChatRequest) : ChatOutcome :=
  match validateChatRequest raw with
  | .error m => .validationError m
  | .ok req =>
    if ¬ s.model_loaded then
      if s.download_progress < 0 then .error503failed
      else .error503loading s.download_progress
    else
      .generate req.messages req.stream req.options

/-! ### Sampling parameter resolution -/

/-- Module-level defaults (lines 72-75). -/
def MAX_NEW_TOKENS : Nat := 2048

/-- Default temperature (line 73). -/
def TEMPERATURE : ℚ := 7/10

/-- Default nucleus-sampling threshold (line 74). -/
def TOP_P : ℚ := 9/10

/-- Default top-k (line 75). -/
def TOP_K : Nat := 40

/-- The generation parameters handed to `model.generate`. -/
structure GenParams where
  max_new_tokens : Nat
  temperature : ℚ
  top_p : ℚ
  top_k : Nat
  do_sample : Bool
deriving DecidableEq, Repr

/-- Parameter extraction in `generate_stream` (lines 303-307 and
317-327): `options.get` with the module defaults, and
`do_sample = temperature > 0` on the resolved temperature. -/
def resolve_stream_params (o : ChatOptions) : GenParams :=
  let temperature := o.temperature.getD TEMPERATURE
  let max_new_tokens := o.num_predict.getD MAX_NEW_TOKENS
  let top_p := o.top_p.getD TOP_P
  let top_k := o.top_k.getD TOP_K
  { max_new_tokens := max_new_tokens
    temperature := temperature
    top_p := top_p
    top_k := top_k
    do_sample := decide (temperature > 0) }

/-- The inline option resolution of the non-streaming branch of `chat`
(lines 450-458): each `options.get(...)` call repeated at the call
site, including the second `options.get("temperature", TEMPERATURE)`
inside the `do_sample` expression. -/
def resolve_chat_params (o : ChatOptions) : GenParams :=
  { max_new_tokens := o.num_predict.getD MAX_NEW_TOKENS
    temperature := o.temperature.getD TEMPERATURE
    top_p := o.top_p.getD TOP_P
    top_k := o.top_k.getD TOP_K
    do_sample := decide (o.temperature.getD TEMPERATURE > 0) }

/-! ### Multimodal message normalizer (`process_multimodal_messages`) -/

/-- One element of a HuggingFace-style structured content list: a text
segment or a decoded image.  `Img` is the opaque decoded-image type
(`PIL.Image` in the source). -/
inductive MMPart (Img : Type) where
  | text (s : String)
  | image (img : Img)
deriving DecidableEq, Repr

/-- One message in HuggingFace chat-template format. -/
structure MMMessage (Img : Type) where
  role : String
  content : List (MMPart Img)
deriving DecidableEq, Repr

/-- The image loop of the `user` branch (lines 263-271): each base64
string is decoded (`base64.b64decode` + `Image.open`, modelled by the
`decode` parameter, `none` meaning the library call raises); on success
an image part is appended, on failure the `except` arm logs
`"Failed to decode image"` (modelled by recording the offending string)
and the loop continues.  Returns the content parts and the log, both in
iteration order. -/
def decodeImagesLoop {Img : Type} (decode : String → Option Img) :
    List String → List (MMPart Img) × List String
  | [] => ([], [])
  | b :: rest =>
    let (ps, logs) := decodeImagesLoop decode rest
    match decode b with
    | some img => (MMPart.image img :: ps, logs)
    | none => (ps, b :: logs)

/-- One iteration of the message loop of `process_multimodal_messages`
(lines 253-284): the `system` / `user` / `assistant` branches each
append one converted message (the `user` branch runs the image loop and
then unconditionally appends the text part); any other role matches no
branch and appends nothing.  Returns the appended messages and the log
entries of this iteration. -/
def processOneMessage {Img : Type} (decode : String → Option Img)
    (msg : ChatMessage) : List (MMMessage Img) × List String :=
  if msg.role = "system" then
    ([⟨"system", [MMPart.text msg.content]⟩], [])
  else if msg.role = "user" then
    let (imgParts, logs) := decodeImagesLoop decode (msg.images.getD [])
    ([⟨"user", imgParts ++ [MMPart.text msg.content]⟩], logs)
  else if msg.role = "assistant" then
    ([⟨"assistant", [MMPart.text msg.content]⟩], [])
  else
    ([], [])

/-- Embeds `process_multimodal_messages` (lines 249-286), paired with the
sequence of decode-failure log records it emits. -/
def process_multimodal_messages {Img : Type} (decode : String → Option Img) :
    List ChatMessage → List (MMMessage Img) × List String
  | [] => ([], [])
  | m :: rest =>
    let (a, la) := processOneMessage decode m
    let (b, lb) := process_multimodal_messages decode rest
    (a ++ b, la ++ lb)

/-- The structured content the `user` branch produces for a message:
the successfully decoded images in order, then the text segment (always
present, even for empty text). -/
def userContent {Img : Type} (decode : String → Option Img) (msg : ChatMessage) :
    List (MMPart Img) :=
  ((msg.images.getD []).filterMap fun b => (decode b).map MMPart.image)
    ++ [MMPart.text msg.content]

/-- The roles the message loop recognises. -/
def recognizedRole (r : String) : Bool :=
  r = "system" || r = "user" || r = "assistant"

/-- The converted message for a recognised role (per-branch shape of
lines 253-284). -/
def processedOf {Img : Type} (decode : String → Option Img) (m : ChatMessage) :
    MMMessage Img :=
  if m.role = "system" then ⟨"system", [MMPart.text m.content]⟩
  else if m.role = "user" then ⟨"user", userContent decode m⟩
  else ⟨"assistant", [MMPart.text m.content]⟩

/-! ### Generation (`generate_stream` and the non-streaming branch) -/

/-- One SSE frame of the streaming response: either a serialised
`ChatResponse` (lines 339-346 for token frames, 349-359 for the final
frame) or the error object of the `except` arm (lines 364-370), which
has only `error`/`type` keys and in particular no `done` field. -/
inductive StreamFrame where
  | chat (content : List Char) (done : Bool) (total_duration : Option Int)
      (eval_count : Option Nat) (prompt_eval_count : Option Nat)
  | error (msg : List Char)
deriving DecidableEq, Repr

/-- A non-final token frame (lines 339-346): the token text, `done =
False`, no counters. -/
def tokenFrame (t : List Char) : StreamFrame :=
  StreamFrame.chat t false none none none

/-- Embeds `generate_stream` (lines 288-370) as the list of frames it yields.
The backend (`model.generate` feeding the `TextIteratorStreamer` with
`skip_prompt=True, skip_special_tokens=True`) is modelled by `tokens`,
the decoded completion-token strings in generation order.  `interrupt =
some k` models an exception raised (in the template application for `k
= 0`, or by the streamer iteration after `k` tokens were yielded): the
`except` arm (lines 364-370) then yields the single error frame and the
stream ends.  `endTime` is `time.time()` (seconds) when the final frame
is built; the final frame carries `int(time.time() * 1e9)` as
`total_duration`, `len(generated_text.split())` as `eval_count`, and
the prompt token count (`inputs["input_ids"].shape[1]`) as
`prompt_eval_count`. -/
def generate_stream (tokens : List (List Char)) (interrupt : Option Nat)
    (promptTokenCount : Nat) (endTime : ℚ) (errMsg : List Char) :
    List StreamFrame :=
  match interrupt with
  | some k => (tokens.take k).map tokenFrame ++ [StreamFrame.error errMsg]
  | none =>
    tokens.map tokenFrame ++
      [StreamFrame.chat [] true (some (pyInt (endTime * 1000000000)))
        (some (pyWords tokens.flatten).length) (some promptTokenCount)]

/-- Holds (as `true`) exactly for a frame that serialises with `done = true`. -/
def isDoneFrame : StreamFrame → Bool
  | StreamFrame.chat _ d _ _ _ => d
  | StreamFrame.error _ => false

/-- Concatenation, in delivery order, of the `content` fields of the
frames with `done = false` (error frames have no content field). -/
def nonFinalContent (frames : List StreamFrame) : List Char :=
  (frames.filterMap fun f =>
    match f with
    | StreamFrame.chat c false _ _ _ => some c
    | _ => none).flatten

/-- The non-streaming `ChatResponse` (lines 465-473), restricted to the
state-dependent fields. -/
structure ChatResponseNS where
  content : List Char
  done : Bool
  total_duration : Option Int
  eval_count : Option Nat
  prompt_eval_count : Option Nat
deriving DecidableEq, Repr

/-- The non-streaming branch of `chat` (lines 438-473) after the
backend call.  `decodedOutput` is `processor.decode(outputs[0],
skip_special_tokens=True)` (the backend returns prompt+completion
concatenated), `promptText` is the decode of `inputs["input_ids"][0]`.
The response text is the character-level slice
`generated_text[len(prompt_text):]` followed by `.strip()`; the
counters are as in the streaming final frame. -/
def chat_nonstream (decodedOutput promptText : List Char)
    (promptTokenCount : Nat) (endTime : ℚ) : ChatResponseNS :=
  let response_text := pyStrip (decodedOutput.drop promptText.length)
  { content := response_text
    done := true
    total_duration := some (pyInt (endTime * 1000000000))
    eval_count := some (pyWords response_text).length
    prompt_eval_count := some promptTokenCount }

/-- A concrete stand-in for the image-decoding library boundary, used
to evaluate the normalizer on concrete inputs: the string `"good"`
decodes to a (dummy) image, anything else raises. -/
def demoDecode : String → Option Nat :=
  fun s => if s = "good" then some 0 else none

/-! ### Characterization lemmas for the normalizer -/

/-- The image loop keeps exactly the successfully decoded images, in
order, and logs exactly the failing ones, in order. -/
lemma decodeImagesLoop_eq {Img : Type} (decode : String → Option Img) :
    ∀ l : List String,
      decodeImagesLoop decode l =
        (l.filterMap fun b => (decode b).map MMPart.image,
         l.filter fun b => (decode b).isNone)
  | [] => rfl
  | b :: rest => by
    simp only [decodeImagesLoop, decodeImagesLoop_eq decode rest]
    cases h : decode b with
    | none => simp [h, List.filterMap_cons, List.filter_cons]
    | some img => simp [h, List.filterMap_cons, List.filter_cons]

/-- A recognised-role message is converted to exactly one message, with
the user branch logging its decode failures. -/
lemma processOneMessage_recognized {Img : Type} (decode : String → Option Img)
    (m : ChatMessage) (h : recognizedRole m.role = true) :
    processOneMessage decode m =
      ([processedOf decode m],
       if m.role = "user"
         then (m.images.getD []).filter fun b => (decode b).isNone
         else []) := by
  have h' : m.role = "system" ∨ m.role = "user" ∨ m.role = "assistant" := by
    simpa [recognizedRole, or_assoc] using h
  rcases h' with h1 | h1 | h1 <;>
    simp [processOneMessage, processedOf, h1, decodeImagesLoop_eq, userContent]

/-- A message whose role is not recognised contributes nothing: no
output message and no log entry. -/
lemma processOneMessage_unknown {Img : Type} (decode : String → Option Img)
    (m : ChatMessage) (h : recognizedRole m.role = false) :
    processOneMessage decode m = ([], []) := by
  have h' : (¬ m.role = "system" ∧ ¬ m.role = "user") ∧ ¬ m.role = "assistant" := by
    simpa [recognizedRole] using h
  simp [processOneMessage, h'.1.1, h'.1.2, h'.2]

/-- Closed form of the normalizer: the output messages are the
recognised-role input messages converted one-to-one in order, and the
log is the concatenation, in order, of the per-user-message decode
failures. -/
lemma process_multimodal_messages_eq {Img : Type} (decode : String → Option Img) :
    ∀ msgs : List ChatMessage,
      process_multimodal_messages decode msgs =
        ((msgs.filter fun m => recognizedRole m.role).map (processedOf decode),
         (msgs.map fun m =>
            if m.role = "user"
              then (m.images.getD []).filter fun b => (decode b).isNone
              else []).flatten)
  | [] => rfl
  | m :: rest => by
    simp only [process_multimodal_messages,
      process_multimodal_messages_eq decode rest]
    cases hr : recognizedRole m.role with
    | false =>
      have hu : ¬ m.role = "user" := by
        have := (by simpa [recognizedRole] using hr :
          (¬ m.role = "system" ∧ ¬ m.role = "user") ∧ ¬ m.role = "assistant")
        exact this.1.2
      rw [processOneMessage_unknown decode m hr]
      simp [List.filter_cons, hr, hu]
    | true =>
      rw [processOneMessage_recognized decode m hr]
      simp [List.filter_cons, hr]

/-! ### Characterization lemmas for the streaming path -/

/-- In an exception-free streaming response, the concatenation of the
contents of the frames with `done = false` is exactly the concatenation
of the streamed tokens. -/
lemma nonFinalContent_generate_stream (tokens : List (List Char))
    (ptc : Nat) (t : ℚ) (e : List Char) :
    nonFinalContent (generate_stream tokens none ptc t e) = tokens.flatten := by
  unfold nonFinalContent generate_stream
  rw [List.filterMap_append, List.filterMap_map]
  have h1 : (List.filterMap
      ((fun f : StreamFrame =>
        match f with
        | StreamFrame.chat c false _ _ _ => some c
        | _ => none) ∘ tokenFrame) tokens) = tokens := by
    rw [show ((fun f : StreamFrame =>
        match f with
        | StreamFrame.chat c false _ _ _ => some c
        | _ => none) ∘ tokenFrame) = some from rfl]
    exact List.filterMap_eq_map id ▸ List.map_id tokens
  rw [h1]
  simp

/-- Every token frame has `done = false`. -/
lemma isDoneFrame_tokenFrame (t : List Char) : isDoneFrame (tokenFrame t) = false := rfl

/-! ### Claim theorems -/

/-- C1: evaluation of the code at the failing input.  For a load
attempt in which the post-load self-test (`test_model`) raises, the
final lifecycle state has `model_loaded = true` with the failure
sentinel `download_progress = -1`: the `except` clause of
`load_model_async` pins the progress sentinel but never clears
`model_loaded`, which was already set to `True` before `test_model` was
awaited.  Consequently the health endpoint reports `"healthy"` and the
chat endpoint proceeds to generation, so request handlers do observe
the model as loaded after a failed self-test — contradicting the claim
that the state flips to ready only after the self-test succeeds. -/
theorem c1_selftest_failure_still_observed_ready :
    load_model_async (some LoadFault.selfTest) = ⟨true, -1⟩ ∧
    (health_check (load_model_async (some LoadFault.selfTest))).status = "healthy" ∧
    chat_endpoint (load_model_async (some LoadFault.selfTest))
        ⟨some "gemma-3n", some [⟨"user", "hi", none⟩], some true, none⟩
      = ChatOutcome.generate [⟨"user", "hi", none⟩] true none := by
  refine ⟨by decide, by decide, by decide⟩

/-- C7: counterexample.  In the terminally failed state reached when
the model-weight load raises (`model_loaded = false`,
`download_progress = -1`), the health endpoint reports `"loading"`, not
`"failed"`: `health_check` only ever produces `"healthy"` or
`"loading"`. -/
theorem c7_health_failed_reports_loading :
    (health_check (load_model_async (some LoadFault.modelLoad))).status ≠ "failed" ∧
    (health_check (load_model_async (some LoadFault.modelLoad))).status = "loading" := by
  refine ⟨by decide, by decide⟩

/-- C7 (amended): the health endpoint never returns a `"failed"`
status — a terminally failed load is reported with status `"loading"`,
the same string as a load in progress; the two situations are
nevertheless distinguishable from the structured fields alone, because
`download_progress` is the negative sentinel exactly in the failed
state, while an in-progress load reports a nonnegative progress. -/
theorem c7_failed_distinguished_by_progress_sentinel (s s' : ServerState)
    (hms : s.model_loaded = false) (hps : s.download_progress < 0)
    (hms' : s'.model_loaded = false) (hps' : 0 ≤ s'.download_progress) :
    (health_check s).status = "loading" ∧
    (health_check s).status = (health_check s').status ∧
    (health_check s).download_progress < 0 ∧
    ¬ (health_check s').download_progress < 0 := by
  refine ⟨by simp [health_check, hms], by simp [health_check, hms, hms'],
    by simpa [health_check] using hps, by simpa [health_check] using not_lt.mpr hps'⟩

/-- C7 witness: the failed state reached by a raising weight load
versus a loading state at 40%. -/
theorem c7_failed_distinguished_by_progress_sentinel_witness :
    (health_check (load_model_async (some LoadFault.modelLoad))).status = "loading" ∧
    (health_check (load_model_async (some LoadFault.modelLoad))).status
      = (health_check ⟨false, 2/5⟩).status ∧
    (health_check (load_model_async (some LoadFault.modelLoad))).download_progress < 0 ∧
    ¬ (health_check (⟨false, 2/5⟩ : ServerState)).download_progress < 0 :=
  c7_failed_distinguished_by_progress_sentinel
    (load_model_async (some LoadFault.modelLoad)) ⟨false, 2/5⟩
    (by decide) (by decide) (by decide) (by norm_num)

/-- C9: counterexample.  A request with a `model` field and an empty
`messages` list passes pydantic validation (the declared type carries
no non-emptiness constraint) and, with the model loaded, reaches the
generation call: it is not rejected with a 4xx-equivalent response. -/
theorem c9_empty_messages_reaches_generation :
    chat_endpoint (load_model_async none) ⟨some "gemma-3n", some [], none, none⟩
      = ChatOutcome.generate [] true none := by decide

/-- C9 (amended): a chat request missing the `model` field (or the
`messages` field) is rejected by validation — regardless of the
lifecycle state, so before any model resource is touched — while a
request whose `messages` list is present but empty is not rejected:
with the model loaded it proceeds to the generation call with the empty
list. -/
theorem c9_missing_fields_rejected_empty_messages_not (s : ServerState)
    (raw : RawChatRequest) :
    (raw.model = none →
      chat_endpoint s raw = ChatOutcome.validationError "field required: model") ∧
    (raw.model ≠ none → raw.messages = none →
      chat_endpoint s raw = ChatOutcome.validationError "field required: messages") ∧
    (∀ (mdl : String) (st : Option Bool) (op : Option ChatOptions),
      s.model_loaded = true →
      chat_endpoint s ⟨some mdl, some [], st, op⟩
        = ChatOutcome.generate [] (st.getD true) op) := by
  obtain ⟨m?, ms?, st?, op?⟩ := raw
  refine ⟨?_, ?_, ?_⟩
  · rintro rfl
    rfl
  · intro hm hms
    cases m? with
    | none => exact absurd rfl hm
    | some m => cases hms; rfl
  · intro mdl st op hload
    simp [chat_endpoint, validateChatRequest, hload]

/-- C9 witness: a missing-model request is rejected even in the initial
(unloaded) state; a loaded-state request with empty messages reaches
generation. -/
theorem c9_missing_fields_rejected_empty_messages_not_witness :
    chat_endpoint initialServerState ⟨none, some [], none, none⟩
      = ChatOutcome.validationError "field required: model" ∧
    chat_endpoint (load_model_async none) ⟨some "gemma-3n", some [], some false, none⟩
      = ChatOutcome.generate [] false none := by
  constructor
  · exact (c9_missing_fields_rejected_empty_messages_not initialServerState
      ⟨none, some [], none, none⟩).1 rfl
  · exact (c9_missing_fields_rejected_empty_messages_not (load_model_async none)
      ⟨some "gemma-3n", some [], some false, none⟩).2.2 "gemma-3n" (some false) none (by decide)

/-- C2: in both the streaming path and the non-streaming path the
resolved sampling parameters agree; the sampling flag handed to
`model.generate` is `false` exactly when the resolved temperature is
not greater than 0 (in particular a request-supplied temperature of 0
forces deterministic decoding); and `temperature`, `top_p`, `top_k` and
`num_predict` take the request-supplied value when the key is present
and the module defaults 0.7, 0.9, 40, 2048 otherwise. -/
theorem c2_sampling_resolution (o : ChatOptions) :
    resolve_stream_params o = resolve_chat_params o ∧
    ((resolve_stream_params o).do_sample = false ↔
      (resolve_stream_params o).temperature ≤ 0) ∧
    (∀ t, o.temperature = some t → (resolve_stream_params o).temperature = t) ∧
    (o.temperature = none → (resolve_stream_params o).temperature = 7/10) ∧
    (∀ p, o.top_p = some p → (resolve_stream_params o).top_p = p) ∧
    (o.top_p = none → (resolve_stream_params o).top_p = 9/10) ∧
    (∀ k, o.top_k = some k → (resolve_stream_params o).top_k = k) ∧
    (o.top_k = none → (resolve_stream_params o).top_k = 40) ∧
    (∀ n, o.num_predict = some n → (resolve_stream_params o).max_new_tokens = n) ∧
    (o.num_predict = none → (resolve_stream_params o).max_new_tokens = 2048) := by
  obtain ⟨t?, n?, p?, k?⟩ := o
  refine ⟨rfl, ?_, ?_, ?_, ?_, ?_, ?_, ?_, ?_, ?_⟩
  · simp [resolve_stream_params, decide_eq_false_iff_not, not_lt]
  all_goals
    cases t? <;> cases n? <;> cases p? <;> cases k? <;>
      simp [resolve_stream_params, TEMPERATURE, TOP_P, TOP_K, MAX_NEW_TOKENS]

/-- C2 witness: a request-supplied temperature of 0 yields
`do_sample = false` in the streaming path, and an absent temperature
resolves to the default 0.7 in the non-streaming path. -/
theorem c2_sampling_resolution_witness :
    (resolve_stream_params ⟨some 0, none, none, none⟩).do_sample = false ∧
    (resolve_chat_params ⟨none, none, none, none⟩).temperature = 7/10 := by
  constructor
  · refine (c2_sampling_resolution ⟨some 0, none, none, none⟩).2.1.mpr ?_
    rw [(c2_sampling_resolution ⟨some 0, none, none, none⟩).2.2.1 0 rfl]
  · have h := c2_sampling_resolution ⟨none, none, none, none⟩
    rw [← h.1]
    exact h.2.2.2.1 rfl

/-- C6: for every message list and every image-decoding outcome, each
user message is normalized without raising: its content list keeps
exactly the successfully decoded images, in order, and always ends with
a text segment carrying the message text (even when the text is empty
and images are present); each image whose decode fails is dropped and
produces exactly one log record, and the log of the whole request is
precisely the per-user-message decode failures in order — a request
with one valid and one corrupt image therefore still yields a normal
processed message containing the valid image and the text. -/
theorem c6_bad_image_dropped_with_log {Img : Type} (decode : String → Option Img)
    (msgs : List ChatMessage) :
    (∀ msg ∈ msgs, msg.role = "user" →
      (⟨"user", userContent decode msg⟩ : MMMessage Img)
        ∈ (process_multimodal_messages decode msgs).1) ∧
    (process_multimodal_messages decode msgs).2 =
      (msgs.map fun m =>
        if m.role = "user"
          then (m.images.getD []).filter fun b => (decode b).isNone
          else []).flatten := by
  rw [process_multimodal_messages_eq]
  constructor
  · intro msg hmem hrole
    have hrec : recognizedRole msg.role = true := by simp [recognizedRole, hrole]
    have hproc : processedOf decode msg = ⟨"user", userContent decode msg⟩ := by
      simp [processedOf, hrole]
    exact hproc ▸ List.mem_map_of_mem (processedOf decode)
      (List.mem_filter.mpr ⟨hmem, hrec⟩)
  · rfl

/-- C6 witness: a user message with one valid image (`"good"`), one
corrupt image (`"bad"`) and text `"hello"` is still normalized into a
message with the decoded image followed by the text segment, and the
corrupt image is the only log record. -/
theorem c6_bad_image_dropped_with_log_witness :
    (⟨"user", [MMPart.image 0, MMPart.text "hello"]⟩ : MMMessage Nat)
      ∈ (process_multimodal_messages demoDecode
          [⟨"user", "hello", some ["good", "bad"]⟩]).1 ∧
    (process_multimodal_messages demoDecode
        [⟨"user", "hello", some ["good", "bad"]⟩]).2 = ["bad"] := by
  have h := c6_bad_image_dropped_with_log demoDecode
    [⟨"user", "hello", some ["good", "bad"]⟩]
  constructor
  · have hm := h.1 ⟨"user", "hello", some ["good", "bad"]⟩ (by decide) rfl
    have hc : userContent demoDecode (⟨"user", "hello", some ["good", "bad"]⟩ : ChatMessage)
        = [MMPart.image 0, MMPart.text "hello"] := by decide
    rwa [hc] at hm
  · rw [h.2]
    decide

/-- C10: messages whose role is not exactly `"system"`, `"user"` or
`"assistant"` are silently omitted by the normalizer: the whole result
(output messages and log) is the same as for the input with those
messages removed — so no error is raised and no log record is
produced for them — and the output is the recognized-role messages
converted one-to-one with their relative order preserved. -/
theorem c10_unknown_roles_silently_omitted {Img : Type}
    (decode : String → Option Img) (msgs : List ChatMessage) :
    process_multimodal_messages decode msgs
      = process_multimodal_messages decode
          (msgs.filter fun m => recognizedRole m.role) ∧
    (process_multimodal_messages decode msgs).1
      = (msgs.filter fun m => recognizedRole m.role).map (processedOf decode) := by
  constructor
  · rw [process_multimodal_messages_eq, process_multimodal_messages_eq,
      List.filter_filter]
    refine congrArg₂ Prod.mk ?_ ?_
    · simp
    · induction msgs with
      | nil => rfl
      | cons m rest ih =>
        cases hr : recognizedRole m.role with
        | true =>
          simp only [List.filter_cons, hr, if_true, List.map_cons, List.flatten_cons]
          rw [ih]
        | false =>
          have hu : ¬ m.role = "user" := by
            have := (by simpa [recognizedRole] using hr :
              (¬ m.role = "system" ∧ ¬ m.role = "user") ∧ ¬ m.role = "assistant")
            exact this.1.2
          simp only [List.filter_cons, hr, if_false, List.map_cons, List.flatten_cons,
            if_neg hu, List.nil_append]
          rw [ih]
          simp
  · exact congrArg Prod.fst (process_multimodal_messages_eq decode msgs)

/-- C3: counterexample.  For the decoded backend output `"P hi"` with
decoded prompt `"P"`, the slice with the prompt prefix removed is
`" hi"`, but the returned content is `"hi"`: the handler additionally
applies `.strip()`, so the content does not equal the decoded output
with the prompt prefix removed. -/
theorem c3_content_not_raw_slice :
    (chat_nonstream ("P hi".toList) ("P".toList) 1 0).content
      ≠ ("P hi".toList).drop (("P".toList).length) := by decide

/-- C3 (amended): for every decoded output of the form prompt ++
completion, the returned content is the completion with leading and
trailing whitespace stripped (in particular the prompt is never
echoed), `eval_count` is the whitespace-word count of the returned
completion, and `prompt_eval_count` is the token length of the encoded
input. -/
theorem c3_content_is_stripped_completion (promptText completion : List Char)
    (ptc : Nat) (t : ℚ) :
    (chat_nonstream (promptText ++ completion) promptText ptc t).content
      = pyStrip completion ∧
    (chat_nonstream (promptText ++ completion) promptText ptc t).done = true ∧
    (chat_nonstream (promptText ++ completion) promptText ptc t).eval_count
      = some (pyWords
          (chat_nonstream (promptText ++ completion) promptText ptc t).content).length ∧
    (chat_nonstream (promptText ++ completion) promptText ptc t).prompt_eval_count
      = some ptc := by
  refine ⟨?_, rfl, rfl, rfl⟩
  show pyStrip ((promptText ++ completion).drop promptText.length) = pyStrip completion
  rw [List.drop_left]

/-- C4: counterexample.  When generation raises before the first token
(for example in the chat-template application), the whole streamed
response is the single error frame of the `except` arm, which carries
no `done` field at all: the response contains zero `done = true`
frames, not exactly one. -/
theorem c4_error_path_emits_no_done_frame :
    generate_stream ["a".toList] (some 0) 1 0 "err".toList
      = [StreamFrame.error "err".toList] ∧
    (generate_stream ["a".toList] (some 0) 1 0 "err".toList).countP isDoneFrame
      = 0 := by
  refine ⟨by decide, by decide⟩

/-- C4 (amended): in an exception-free streaming response exactly one
frame carries `done = true` and it is the last frame (every earlier
frame has `done = false`); when generation raises after `k` yielded
tokens, the stream instead terminates with a single error frame and no
frame of the response carries `done = true`.  In both cases nothing
follows the terminating frame. -/
theorem c4_done_frame_is_terminal (tokens : List (List Char)) (ptc : Nat)
    (t : ℚ) (e : List Char) (interrupt : Option Nat) :
    (∀ k, interrupt = some k →
      ∃ fs, generate_stream tokens interrupt ptc t e
          = fs ++ [StreamFrame.error e] ∧
        ∀ f ∈ fs, isDoneFrame f = false) ∧
    (interrupt = none →
      ∃ fs f, generate_stream tokens interrupt ptc t e = fs ++ [f] ∧
        isDoneFrame f = true ∧ ∀ g ∈ fs, isDoneFrame g = false) := by
  constructor
  · rintro k rfl
    refine ⟨(tokens.take k).map tokenFrame, rfl, ?_⟩
    intro f hf
    obtain ⟨tk, -, rfl⟩ := List.mem_map.mp hf
    rfl
  · rintro rfl
    refine ⟨tokens.map tokenFrame, _, rfl, rfl, ?_⟩
    intro g hg
    obtain ⟨tk, -, rfl⟩ := List.mem_map.mp hg
    rfl

/-- C4 witness: the two-frame response for a single streamed token ends
in its unique `done = true` frame. -/
theorem c4_done_frame_is_terminal_witness :
    ∃ fs f, generate_stream ["hi".toList] none 2 0 [] = fs ++ [f] ∧
      isDoneFrame f = true ∧ ∀ g ∈ fs, isDoneFrame g = false :=
  (c4_done_frame_is_terminal ["hi".toList] 2 0 [] none).2 rfl

/-- C5: counterexample.  For the backend token sequence `[" hi"]` (so
the decoded output is the prompt followed by `" hi"`), the streaming
path delivers the non-final content `" hi"` while the non-streaming
path returns `"hi"`: the `.strip()` of the non-streaming handler makes
the two paths differ on completions with surrounding whitespace. -/
theorem c5_stream_concat_differs_from_nonstream :
    nonFinalContent (generate_stream [" hi".toList] none 1 0 [])
      ≠ (chat_nonstream ("P".toList ++ " hi".toList) ("P".toList) 1 0).content := by
  decide

/-- C5 (amended): for the same backend token sequence (deterministic
decoding makes it identical across the two paths) the non-streaming
content equals the concatenation, in delivery order, of the contents of
all non-final streamed frames with leading and trailing whitespace
stripped — equality holds after `.strip()`, not verbatim. -/
theorem c5_nonstream_is_stripped_stream_concat (tokens : List (List Char))
    (promptText : List Char) (ptc ptc' : Nat) (t t' : ℚ) (e : List Char) :
    (chat_nonstream (promptText ++ tokens.flatten) promptText ptc t).content
      = pyStrip (nonFinalContent (generate_stream tokens none ptc' t' e)) := by
  rw [nonFinalContent_generate_stream]
  show pyStrip ((promptText ++ tokens.flatten).drop promptText.length)
      = pyStrip tokens.flatten
  rw [List.drop_left]

/-- C8: evaluation of the code at the failing input.  For a generation
job that starts at epoch second 100 and completes at epoch second 101,
the elapsed time is 1 000 000 000 ns, but both the streaming final
frame and the non-streaming response carry `total_duration =
101 000 000 000` — `int(time.time() * 1e9)` at completion, an absolute
wall-clock timestamp with no start time subtracted — which differs
from the elapsed nanoseconds the claim (and the protocol field name)
require. -/
theorem c8_total_duration_is_absolute_timestamp :
    generate_stream ["hi".toList] none 3 101 []
      = [tokenFrame "hi".toList,
         StreamFrame.chat [] true (some 101000000000) (some 1) (some 3)] ∧
    (chat_nonstream ("P".toList ++ "hi".toList) ("P".toList) 3 101).total_duration
      = some 101000000000 ∧
    pyInt (((101 : ℚ) - 100) * 1000000000) = 1000000000 ∧
    (101000000000 : Int) ≠ 1000000000 := by
  have h1 : pyInt ((101 : ℚ) * 1000000000) = 101000000000 := by
    have he : ((101 : ℚ) * 1000000000) = ((101000000000 : ℚ)) := by norm_num
    rw [he]
    norm_num [pyInt, Rat.floor]
  have h2 : pyInt (((101 : ℚ) - 100) * 1000000000) = 1000000000 := by
    have he : (((101 : ℚ) - 100) * 1000000000) = ((1000000000 : ℚ)) := by norm_num
    rw [he]
    norm_num [pyInt, Rat.floor]
  refine ⟨?_, ?_, h2, by norm_num⟩
  · show List.map tokenFrame ["hi".toList] ++
        [StreamFrame.chat [] true (some (pyInt ((101 : ℚ) * 1000000000)))
          (some (pyWords (["hi".toList].flatten)).length) (some 3)]
      = _
    rw [h1]
    decide
  · show some (pyInt ((101 : ℚ) * 1000000000)) = some 101000000000
    rw [h1]
